import Mathlib

/-!
Shallow embedding of the foodapi gateway core (src/index.ts).

JavaScript numbers are modelled as exact rationals (`ℚ`) together with the
non-finite values `nan`, `inf`, `negInf`; `toFixed(f)` is modelled by the
ECMAScript rule "the integer n with n / 10^f closest to x, ties to the larger
n", i.e. rounding half toward positive infinity.  JavaScript strings are
modelled as Lean `String`s; `trim` / `toLowerCase` are re-implemented
structurally over the character list (ASCII-faithful) so that concrete
instances evaluate inside the kernel.  Absent / `undefined` / `null` object
fields are modelled with `Option`.
-/

/-- Model of JavaScript `String.prototype.trim` (ASCII whitespace). -/
def strTrim (s : String) : String :=
  ⟨((s.data.dropWhile Char.isWhitespace).reverse.dropWhile Char.isWhitespace).reverse⟩

/-- Model of JavaScript `String.prototype.toLowerCase` (ASCII letters). -/
def strLower (s : String) : String :=
  ⟨s.data.map Char.toLower⟩

/-- Non-finite-aware JavaScript number: an exact rational or NaN / ±Infinity. -/
inductive JSNum where
  | finite (q : ℚ) : JSNum
  | nan : JSNum
  | inf : JSNum
  | negInf : JSNum
deriving DecidableEq

/-- Model of `Number.isFinite`. -/
def jsIsFinite : JSNum → Bool
  | JSNum.finite _ => true
  | _ => false

/-- Value of a digit list read in base 10. -/
def digitsVal (cs : List Char) : ℕ :=
  cs.foldl (fun a c => a * 10 + (c.toNat - 48)) 0

/-- Model of JavaScript `Number(string)` coercion for decimal literals:
whitespace is trimmed, the empty string is 0, an optional sign followed by
`digits`, `digits.digits` or `.digits` is read exactly, and anything else
(including exponent, hex and `Infinity` forms, which the repository's data
never uses) is NaN. -/
def jsStringToNumber (s : String) : JSNum :=
  let cs := (strTrim s).data
  if cs.isEmpty then JSNum.finite 0
  else
    let sign : ℚ := if cs.head? == some '-' then -1 else 1
    let rest := match cs with
      | c :: r => if c == '-' || c == '+' then r else c :: r
      | [] => []
    let intPart := rest.takeWhile Char.isDigit
    let rest2 := rest.dropWhile Char.isDigit
    match rest2 with
    | [] =>
        if intPart.isEmpty then JSNum.nan
        else JSNum.finite (sign * (digitsVal intPart : ℚ))
    | '.' :: fr =>
        let fracPart := fr.takeWhile Char.isDigit
        let rest3 := fr.dropWhile Char.isDigit
        if rest3.isEmpty && !(intPart.isEmpty && fracPart.isEmpty) then
          JSNum.finite (sign * ((digitsVal intPart : ℚ)
            + (digitsVal fracPart : ℚ) / 10 ^ fracPart.length))
        else JSNum.nan
    | _ => JSNum.nan

/-- Dynamic JavaScript value as it can sit in a nutrient record's `value`
field. -/
inductive JSValue where
  | num (n : JSNum) : JSValue
  | str (s : String) : JSValue
  | undef : JSValue
  | nullv : JSValue
  | bool (b : Bool) : JSValue
deriving DecidableEq

/-- Model of `typeof v === 'number' ? v : Number(v)` as used on nutrient
values: numbers pass through, strings go through `Number(string)`,
`undefined` is NaN, `null` is 0 and booleans are 0 / 1. -/
def toNumber : JSValue → JSNum
  | JSValue.num n => n
  | JSValue.str s => jsStringToNumber s
  | JSValue.undef => JSNum.nan
  | JSValue.nullv => JSNum.finite 0
  | JSValue.bool b => JSNum.finite (if b then 1 else 0)

/-- Raw nutrient record from the upstream payload.  String-valued identifier
fields are kept after the source's `String(...)` conversion; absent fields are
`none`. -/
structure NutrientRecord where
  nutrientNumber : Option String
  number : Option String
  nutrientName : Option String
  name : Option String
  value : JSValue
  unitName : Option String
  unit : Option String
deriving DecidableEq

/-- Model of the JavaScript truthiness chain `a || b || ''` on two optional
strings: an absent or empty first operand falls through to the second, an
absent or empty second operand yields the empty string. -/
def jsOrEmpty (a b : Option String) : String :=
  if a.getD "" = "" then b.getD "" else a.getD ""

/-- Unit string of a located record, `(match.unitName || match.unit ||
'').toLowerCase()` from `getEnergyKcal` / `getNutrientGrams`. -/
def unitOf (m : NutrientRecord) : String :=
  strLower (jsOrEmpty m.unitName m.unit)

/-- Match predicate of `findNutrient`: some identifier equals the trimmed
code exactly, or equals the trimmed name case-insensitively. -/
def nutrientMatches (idsOrNames : List String) (n : NutrientRecord) : Bool :=
  let numr := strTrim (n.nutrientNumber.getD (n.number.getD ""))
  let nam := strTrim (n.nutrientName.getD (n.name.getD ""))
  idsOrNames.any fun key => key == numr || strLower key == strLower nam

/-- `findNutrient` from src/index.ts: first record of the list matched by
`nutrientMatches`, `none` when no record matches. -/
def findNutrient (nutrients : List NutrientRecord) (idsOrNames : List String) :
    Option NutrientRecord :=
  nutrients.find? (nutrientMatches idsOrNames)

/-- Model of `Number(x.toFixed(f))` on a finite value: round to `f` decimal
places, half toward positive infinity (the ECMAScript `toFixed` tie rule). -/
def roundToDec (f : ℕ) (q : ℚ) : ℚ :=
  ((⌊q * 10 ^ f + 1 / 2⌋ : ℤ) : ℚ) / 10 ^ f

/-- `getEnergyKcal` from src/index.ts: locate the energy record by
`['1008', 'Energy']`; a missing record or non-finite value gives `none`; a
kilojoule unit divides by 4.184 and rounds to 1 decimal, anything else rounds
to 1 decimal. -/
def getEnergyKcal (nutrients : List NutrientRecord) : Option ℚ :=
  match findNutrient nutrients ["1008", "Energy"] with
  | none => none
  | some m =>
      match toNumber m.value with
      | JSNum.finite v =>
          if unitOf m = "kj" then some (roundToDec 1 (v / (4184 / 1000)))
          else some (roundToDec 1 v)
      | _ => none

/-- `getNutrientGrams` from src/index.ts: locate the record by the given
code/name aliases; a missing record or non-finite value gives `none`; a
milligram unit divides by 1000 and rounds to 2 decimals, anything else rounds
to 2 decimals. -/
def getNutrientGrams (nutrients : List NutrientRecord) (idsOrNames : List String) :
    Option ℚ :=
  match findNutrient nutrients idsOrNames with
  | none => none
  | some m =>
      match toNumber m.value with
      | JSNum.finite v =>
          if unitOf m = "mg" then some (roundToDec 2 (v / 1000))
          else some (roundToDec 2 v)
      | _ => none

/-- Alias set for protein used by the normalizer. -/
def proteinIds : List String := ["1003", "Protein"]

/-- Alias set for fat used by the normalizer. -/
def fatIds : List String := ["1004", "Total lipid (fat)", "Total Fat"]

/-- Alias set for carbohydrates used by the normalizer. -/
def carbIds : List String := ["1005", "Carbohydrate, by difference", "Carbohydrate"]

/-- Raw upstream food item, fields the normalizer reads. -/
structure RawFoodItem where
  fdcId : Option Int
  description : Option String
  brandName : Option String
  brandOwner : Option String
  servingSize : Option ℚ
  servingSizeUnit : Option String
  foodNutrients : Option (List NutrientRecord)
deriving DecidableEq

/-- Macro block of a normalized food. -/
structure Macros where
  protein_g : Option ℚ
  carbs_g : Option ℚ
  fat_g : Option ℚ
deriving DecidableEq

/-- Normalized food record returned by the /foods handler. -/
structure NormalizedFood where
  fdcId : Option Int
  description : Option String
  brandName : Option String
  servingSize : Option ℚ
  servingSizeUnit : Option String
  calories : Option ℚ
  macros : Macros
deriving DecidableEq

/-- The per-item body of the `foods.map` normalizer in the /foods handler:
a non-array `foodNutrients` becomes the empty list, the four nutrients are
extracted, and the descriptive fields default to `null` (with `brandName`
falling back to `brandOwner`). -/
def normalizeFoodItem (item : RawFoodItem) : NormalizedFood :=
  let nutrients := item.foodNutrients.getD []
  { fdcId := item.fdcId
    description := item.description
    brandName := match item.brandName with
      | some b => some b
      | none => item.brandOwner
    servingSize := item.servingSize
    servingSizeUnit := item.servingSizeUnit
    calories := getEnergyKcal nutrients
    macros :=
      { protein_g := getNutrientGrams nutrients proteinIds
        carbs_g := getNutrientGrams nutrients carbIds
        fat_g := getNutrientGrams nutrients fatIds } }

/-- Character class of the `/^[a-zA-Z0-9\s\-_]+$/` validator pattern. -/
def allowedTypeChar (c : Char) : Bool :=
  c.isAlphanum || c.isWhitespace || c == '-' || c == '_'

/-- Syntactic validation of the `type` query parameter
(`query('type').trim().notEmpty().isLength({min:1,max:100}).matches(...)`):
the trimmed value is non-empty, of length 1 to 100, and drawn from the
allowed character class.  A missing parameter fails `notEmpty`. -/
def typeParamOk (tp : Option String) : Bool :=
  match tp with
  | none => false
  | some s =>
      let t := strTrim s
      !t.data.isEmpty && (1 ≤ t.data.length && t.data.length ≤ 100)
        && t.data.all allowedTypeChar

/-- Model of validator.js `isInt`: an optional sign followed by at least one
digit (leading zeroes allowed by default). -/
def isIntString (s : String) : Bool :=
  let ds := match s.data with
    | c :: r => if c == '+' || c == '-' then r else c :: r
    | [] => []
  !ds.isEmpty && ds.all Char.isDigit

/-- Model of `Number.parseInt(s, 10)`: skip leading whitespace, read an
optional sign and the longest digit prefix; no digits means NaN (`none`). -/
def jsParseInt10 (s : String) : Option ℤ :=
  let cs := s.data.dropWhile Char.isWhitespace
  let signNeg : Bool := cs.head? == some '-'
  let rest := match cs with
    | c :: r => if c == '-' || c == '+' then r else c :: r
    | [] => []
  let ds := rest.takeWhile Char.isDigit
  if ds.isEmpty then none
  else some (if signNeg then -(digitsVal ds : ℤ) else (digitsVal ds : ℤ))

/-- Syntactic validation of the `limit` query parameter
(`query('limit').optional().isInt({min:1,max:50})`). -/
def limitParamOk (lp : Option String) : Bool :=
  match lp with
  | none => true
  | some s =>
      isIntString s &&
        (match jsParseInt10 s with
         | some n => decide (1 ≤ n) && decide (n ≤ 50)
         | none => false)

/-- Word character of the JavaScript `\w` class. -/
def isWordChar (c : Char) : Bool :=
  c.isAlphanum || c == '_'

/-- Reserved words of the `/^(test|debug|admin|system)$/i` pattern. -/
def reservedWords : List String := ["test", "debug", "admin", "system"]

/-- The `problematicPatterns` check of the /foods handler: only digits
(`/^\d+$/`), only characters that are neither word characters nor whitespace
(`/^[^\w\s]+$/`), or a case-insensitive reserved word. -/
def isProblematic (q : String) : Bool :=
  (!q.data.isEmpty && q.data.all Char.isDigit)
    || (!q.data.isEmpty && q.data.all fun c => !isWordChar c && !c.isWhitespace)
    || reservedWords.any (fun w => strLower q == w)

/-- Outcome of the /foods handler up to (and excluding) the upstream call. -/
inductive PreOutcome where
  | validationErr : PreOutcome
  | configErr : PreOutcome
  | foodTypeErr : PreOutcome
  | proceed (q : String) (limit : ℤ) : PreOutcome
deriving DecidableEq

/-- HTTP status attached to each pre-upstream outcome by the error classes
(`ValidationError` 400, `ConfigurationError` 500, `FoodTypeError` 400) and by
the success path (200). -/
def preStatus : PreOutcome → ℕ
  | PreOutcome.validationErr => 400
  | PreOutcome.configErr => 500
  | PreOutcome.foodTypeErr => 400
  | PreOutcome.proceed _ _ => 200

/-- The /foods handler from syntactic validation up to the upstream call:
validator errors first, then the missing-key check, then limit parsing
(`parseInt`, reject non-finite or non-positive, cap at 50 with `Math.min`),
then the empty / too-short / problematic checks on the trimmed query. -/
def foodsPreUpstream (typeP limitP : Option String) (hasKey : Bool) : PreOutcome :=
  if !(typeParamOk typeP && limitParamOk limitP) then PreOutcome.validationErr
  else if !hasKey then PreOutcome.configErr
  else
    let q := strTrim (typeP.getD "")
    match jsParseInt10 (limitP.getD "10") with
    | none => PreOutcome.validationErr
    | some n =>
        if n ≤ 0 then PreOutcome.validationErr
        else
          let lim := min n 50
          if q.data.isEmpty then PreOutcome.foodTypeErr
          else if q.data.length < 2 then PreOutcome.foodTypeErr
          else if isProblematic q then PreOutcome.foodTypeErr
          else PreOutcome.proceed q lim

/-- The `statusMessages` table of the /foods handler. -/
def statusMessageTable : List (ℕ × String) :=
  [(400, "Invalid request sent to USDA API"),
   (401, "USDA API authentication failed"),
   (403, "Access to USDA API denied"),
   (404, "USDA API endpoint not found"),
   (429, "USDA API rate limit exceeded"),
   (500, "USDA API internal server error"),
   (502, "USDA API gateway error"),
   (503, "USDA API service unavailable"),
   (504, "USDA API gateway timeout")]

/-- An `UpstreamAPIError` as surfaced by the global error handler: the
message, the upstream status, and the response status computed by the class
constructor (`upstreamStatus >= 500 ? 503 : upstreamStatus`). -/
structure UpstreamErrorView where
  errMsg : String
  upstream_status : ℕ
  httpStatus : ℕ
deriving DecidableEq

/-- Construction of the upstream-error response for a non-ok upstream status:
message from `statusMessages` with the generic fallback, `upstream_status`
echoed, HTTP status from the `UpstreamAPIError` constructor. -/
def upstreamErrorResponse (s : ℕ) : UpstreamErrorView :=
  { errMsg := (statusMessageTable.lookup s).getD "USDA API error occurred"
    upstream_status := s
    httpStatus := if 500 ≤ s then 503 else s }

/-- Minimal JSON value, the possible results of `response.json()`. -/
inductive JsonValue where
  | jnull : JsonValue
  | jbool (b : Bool) : JsonValue
  | jnum (q : ℚ) : JsonValue
  | jstr (s : String) : JsonValue
  | jarr (elems : List JsonValue) : JsonValue
  | jobj (fields : List (String × JsonValue)) : JsonValue

/-- JavaScript falsiness of a parsed JSON value (`!data`). -/
def jsFalsy : JsonValue → Bool
  | JsonValue.jnull => true
  | JsonValue.jbool b => !b
  | JsonValue.jnum q => q == 0
  | JsonValue.jstr s => s.data.isEmpty
  | _ => false

/-- JavaScript `typeof data === 'object'` on a parsed JSON value: true for
`null`, arrays and objects. -/
def jsTypeofObject : JsonValue → Bool
  | JsonValue.jnull => true
  | JsonValue.jarr _ => true
  | JsonValue.jobj _ => true
  | _ => false

/-- Whether a parsed JSON value is an object in the sense of the handler's
guard, i.e. survives `!data || typeof data !== 'object'`: an array or an
object. -/
def isObjectLike : JsonValue → Bool
  | JsonValue.jarr _ => true
  | JsonValue.jobj _ => true
  | _ => false

/-- Continuation of the /foods handler after the upstream body is read. -/
inductive BodyStep where
  | parsingErrorResp (httpStatus : ℕ) : BodyStep
  | normalizeData (data : JsonValue) : BodyStep

/-- Body handling of the /foods handler: a failed `response.json()` (`none`)
raises `ParsingError` (status 422 from the class constructor), as does a
parsed value failing `!data || typeof data !== 'object'`; otherwise the data
proceeds to normalization. -/
def handleParsedBody (parsed : Option JsonValue) : BodyStep :=
  match parsed with
  | none => BodyStep.parsingErrorResp 422
  | some d =>
      if jsFalsy d || !jsTypeofObject d then BodyStep.parsingErrorResp 422
      else BodyStep.normalizeData d

/-- An optional numeric field is either absent or a finite value carrying at
most `f` decimal places. -/
def roundedOrNull (f : ℕ) : Option ℚ → Bool
  | none => true
  | some q => (q * 10 ^ f).den == 1

/-- Sample record: 500 mg of protein under code 1003. -/
def proteinMg500 : NutrientRecord where
  nutrientNumber := some "1003"
  number := none
  nutrientName := some "Protein"
  name := none
  value := JSValue.num (JSNum.finite 500)
  unitName := some "mg"
  unit := none

/-- Sample record: energy given as the string value "95" in kcal. -/
def energyStr95 : NutrientRecord where
  nutrientNumber := some "1008"
  number := none
  nutrientName := some "Energy"
  name := none
  value := JSValue.str "95"
  unitName := some "kcal"
  unit := none

/-- Sample record: energy with upper-case unit KJ. -/
def energyKJupper : NutrientRecord where
  nutrientNumber := some "1008"
  number := none
  nutrientName := some "Energy"
  name := none
  value := JSValue.num (JSNum.finite 100)
  unitName := some "KJ"
  unit := none

/-- Sample record: fat of 500 with `unitName` absent and `unit` "MG". -/
def fatUnitFallback : NutrientRecord where
  nutrientNumber := some "1004"
  number := none
  nutrientName := none
  name := some "Total Fat"
  value := JSValue.num (JSNum.finite 500)
  unitName := none
  unit := some "MG"

example : strTrim "  ab  " = "ab" := by decide
example : jsStringToNumber "95" = JSNum.finite 95 := by with_unfolding_all decide
example : jsStringToNumber "95.5" = JSNum.finite (191 / 2) := by with_unfolding_all decide
example : jsStringToNumber "abc" = JSNum.nan := by with_unfolding_all decide
example : jsStringToNumber "" = JSNum.finite 0 := by with_unfolding_all decide
example : jsParseInt10 "60" = some 60 := by decide
example : roundToDec 1 (100 / (4184 / 1000)) = 239 / 10 := by with_unfolding_all decide
example : foodsPreUpstream (some "apple") (some "60") true = PreOutcome.validationErr := by
  with_unfolding_all decide
example : foodsPreUpstream (some "apple") none true = PreOutcome.proceed "apple" 10 := by
  with_unfolding_all decide
example : foodsPreUpstream (some "- -") none true = PreOutcome.proceed "- -" 10 := by
  with_unfolding_all decide
example : foodsPreUpstream (some "123") none true = PreOutcome.foodTypeErr := by
  with_unfolding_all decide
example : foodsPreUpstream (some "a") none true = PreOutcome.foodTypeErr := by
  with_unfolding_all decide
/-- Sample record: 100 kJ of energy under code 1008. -/
def energyKJ100 : NutrientRecord where
  nutrientNumber := some "1008"
  number := none
  nutrientName := some "Energy"
  name := none
  value := JSValue.num (JSNum.finite 100)
  unitName := some "kJ"
  unit := none

example : getEnergyKcal [energyKJ100] = some (239 / 10) := by
  with_unfolding_all decide

lemma roundToDec_mul_den (f : ℕ) (q : ℚ) : (roundToDec f q * 10 ^ f).den = 1 := by
  unfold roundToDec
  rw [div_mul_cancel₀]
  · exact Rat.den_intCast _
  · positivity

lemma roundToDec_mul_ten_den (q : ℚ) : (roundToDec 1 q * 10).den = 1 := by
  simpa using roundToDec_mul_den 1 q

lemma getEnergyKcal_none {ns : List NutrientRecord}
    (h : findNutrient ns ["1008", "Energy"] = none) : getEnergyKcal ns = none := by
  unfold getEnergyKcal
  rw [h]

lemma getEnergyKcal_found {ns : List NutrientRecord} {m : NutrientRecord}
    (h : findNutrient ns ["1008", "Energy"] = some m) :
    getEnergyKcal ns =
      match toNumber m.value with
      | JSNum.finite v =>
          if unitOf m = "kj" then some (roundToDec 1 (v / (4184 / 1000)))
          else some (roundToDec 1 v)
      | _ => none := by
  unfold getEnergyKcal
  rw [h]

lemma getEnergyKcal_finite {ns : List NutrientRecord} {m : NutrientRecord} {v : ℚ}
    (h : findNutrient ns ["1008", "Energy"] = some m)
    (hv : toNumber m.value = JSNum.finite v) :
    getEnergyKcal ns =
      some (if unitOf m = "kj" then roundToDec 1 (v / (4184 / 1000))
            else roundToDec 1 v) := by
  rw [getEnergyKcal_found h, hv]
  split
  · rename_i x q heq
    cases heq
    split <;> rfl
  · rename_i x hcon
    exact absurd rfl (hcon v)

lemma getEnergyKcal_nonfinite {ns : List NutrientRecord} {m : NutrientRecord}
    (h : findNutrient ns ["1008", "Energy"] = some m)
    (hv : jsIsFinite (toNumber m.value) = false) : getEnergyKcal ns = none := by
  rw [getEnergyKcal_found h]
  cases hn : toNumber m.value <;> simp_all [jsIsFinite]

lemma getNutrientGrams_none {ns : List NutrientRecord} {ids : List String}
    (h : findNutrient ns ids = none) : getNutrientGrams ns ids = none := by
  unfold getNutrientGrams
  rw [h]

lemma getNutrientGrams_found {ns : List NutrientRecord} {ids : List String}
    {m : NutrientRecord} (h : findNutrient ns ids = some m) :
    getNutrientGrams ns ids =
      match toNumber m.value with
      | JSNum.finite v =>
          if unitOf m = "mg" then some (roundToDec 2 (v / 1000))
          else some (roundToDec 2 v)
      | _ => none := by
  unfold getNutrientGrams
  rw [h]

lemma getNutrientGrams_finite {ns : List NutrientRecord} {ids : List String}
    {m : NutrientRecord} {v : ℚ} (h : findNutrient ns ids = some m)
    (hv : toNumber m.value = JSNum.finite v) :
    getNutrientGrams ns ids =
      some (if unitOf m = "mg" then roundToDec 2 (v / 1000) else roundToDec 2 v) := by
  rw [getNutrientGrams_found h, hv]
  split
  · rename_i x q heq
    cases heq
    split <;> rfl
  · rename_i x hcon
    exact absurd rfl (hcon v)

lemma getNutrientGrams_nonfinite {ns : List NutrientRecord} {ids : List String}
    {m : NutrientRecord} (h : findNutrient ns ids = some m)
    (hv : jsIsFinite (toNumber m.value) = false) : getNutrientGrams ns ids = none := by
  rw [getNutrientGrams_found h]
  cases hn : toNumber m.value <;> simp_all [jsIsFinite]

lemma roundedOrNull_energy (ns : List NutrientRecord) :
    roundedOrNull 1 (getEnergyKcal ns) = true := by
  cases h : findNutrient ns ["1008", "Energy"] with
  | none => rw [getEnergyKcal_none h]; rfl
  | some m =>
      cases hn : toNumber m.value with
      | finite v =>
          rw [getEnergyKcal_finite h hn]
          rcases eq_or_ne (unitOf m) "kj" with hu | hu <;>
            simp [roundedOrNull, hu, roundToDec_mul_den, roundToDec_mul_ten_den]
      | nan => rw [getEnergyKcal_nonfinite h (by rw [hn]; rfl)]; rfl
      | inf => rw [getEnergyKcal_nonfinite h (by rw [hn]; rfl)]; rfl
      | negInf => rw [getEnergyKcal_nonfinite h (by rw [hn]; rfl)]; rfl

lemma roundedOrNull_grams (ns : List NutrientRecord) (ids : List String) :
    roundedOrNull 2 (getNutrientGrams ns ids) = true := by
  cases h : findNutrient ns ids with
  | none => rw [getNutrientGrams_none h]; rfl
  | some m =>
      cases hn : toNumber m.value with
      | finite v =>
          rw [getNutrientGrams_finite h hn]
          rcases eq_or_ne (unitOf m) "mg" with hu | hu <;>
            simp [roundedOrNull, hu, roundToDec_mul_den]
      | nan => rw [getNutrientGrams_nonfinite h (by rw [hn]; rfl)]; rfl
      | inf => rw [getNutrientGrams_nonfinite h (by rw [hn]; rfl)]; rfl
      | negInf => rw [getNutrientGrams_nonfinite h (by rw [hn]; rfl)]; rfl

/-- C1: for every list of raw nutrient records, energy extraction locates a record
by the identifiers ["1008", "Energy"]; if that record's unit is kilojoules the
value is divided by 4.184 and rounded to 1 decimal place (an input of 100 kJ
yields 23.9 kcal), otherwise the value is rounded to 1 decimal place; a missing
record or non-finite value yields null. -/
theorem C1_energy_extraction (ns : List NutrientRecord) :
    (findNutrient ns ["1008", "Energy"] = none → getEnergyKcal ns = none)
    ∧ (∀ m : NutrientRecord, findNutrient ns ["1008", "Energy"] = some m →
        (∀ v : ℚ, toNumber m.value = JSNum.finite v →
          getEnergyKcal ns =
            some (if unitOf m = "kj" then roundToDec 1 (v / (4184 / 1000))
                  else roundToDec 1 v))
        ∧ (jsIsFinite (toNumber m.value) = false → getEnergyKcal ns = none)
        ∧ (toNumber m.value = JSNum.finite 100 → unitOf m = "kj" →
            getEnergyKcal ns = some (239 / 10))) := by
  refine ⟨fun h => getEnergyKcal_none h, fun m hm => ⟨?_, ?_, ?_⟩⟩
  · exact fun v hv => getEnergyKcal_finite hm hv
  · exact fun hv => getEnergyKcal_nonfinite hm hv
  · intro hv hu
    rw [getEnergyKcal_finite hm hv, if_pos hu]
    have : roundToDec 1 ((100 : ℚ) / (4184 / 1000)) = 239 / 10 := by
      with_unfolding_all decide
    rw [this]

/-- Witness for C1 at the concrete record `energyKJ100` (100 kJ of energy). -/
theorem C1_energy_extraction_w : getEnergyKcal [energyKJ100] = some (239 / 10) :=
  (((C1_energy_extraction [energyKJ100]).2 energyKJ100 (by decide)).2.2
    (by decide) (by decide))

/-- C2: for every list of raw nutrient records and every code/name alias set,
mass extraction locates the record by the alias set; if that record's unit is
milligrams the value is divided by 1000; the result is rounded to 2 decimal
places (an input of 500 mg yields 0.5 g); a missing record or non-finite value
yields null. -/
theorem C2_mass_extraction (ns : List NutrientRecord) (ids : List String) :
    (findNutrient ns ids = none → getNutrientGrams ns ids = none)
    ∧ (∀ m : NutrientRecord, findNutrient ns ids = some m →
        (∀ v : ℚ, toNumber m.value = JSNum.finite v →
          getNutrientGrams ns ids =
            some (if unitOf m = "mg" then roundToDec 2 (v / 1000)
                  else roundToDec 2 v))
        ∧ (jsIsFinite (toNumber m.value) = false → getNutrientGrams ns ids = none)
        ∧ (toNumber m.value = JSNum.finite 500 → unitOf m = "mg" →
            getNutrientGrams ns ids = some (1 / 2))) := by
  refine ⟨fun h => getNutrientGrams_none h, fun m hm => ⟨?_, ?_, ?_⟩⟩
  · exact fun v hv => getNutrientGrams_finite hm hv
  · exact fun hv => getNutrientGrams_nonfinite hm hv
  · intro hv hu
    rw [getNutrientGrams_finite hm hv, if_pos hu]
    have : roundToDec 2 ((500 : ℚ) / 1000) = 1 / 2 := by
      with_unfolding_all decide
    rw [this]

/-- Witness for C2 at the concrete record `proteinMg500` (500 mg of protein). -/
theorem C2_mass_extraction_w :
    getNutrientGrams [proteinMg500] proteinIds = some (1 / 2) :=
  (((C2_mass_extraction [proteinMg500] proteinIds).2 proteinMg500 (by decide)).2.2
    (by decide) (by decide))

/-- C3: the nutrient locator returns the first record in list order whose
trimmed code equals some identifier exactly or whose trimmed name equals some
identifier case-insensitively, and returns null (not an error) when no record
matches; a record carrying code "1003" and name "Protein" is resolved both by
the code and by the name. -/
theorem C3_find_first_match (ns : List NutrientRecord) (ids : List String) :
    (findNutrient ns ids = none ↔ ∀ n ∈ ns, nutrientMatches ids n = false)
    ∧ (∀ m : NutrientRecord, findNutrient ns ids = some m ↔
        nutrientMatches ids m = true ∧
          ∃ pre post, ns = pre ++ m :: post ∧ ∀ x ∈ pre, nutrientMatches ids x = false)
    ∧ (∀ r : NutrientRecord,
        strTrim (r.nutrientNumber.getD (r.number.getD "")) = "1003" →
        strTrim (r.nutrientName.getD (r.name.getD "")) = "Protein" →
        findNutrient (r :: ns) ["1003"] = some r
          ∧ findNutrient (r :: ns) ["Protein"] = some r) := by
  refine ⟨?_, ?_, ?_⟩
  · simp [findNutrient, List.find?_eq_none]
  · intro m
    rw [findNutrient, List.find?_eq_some]
    simp [Bool.not_eq_true']
  · intro r h1 h2
    constructor <;>
.     exact List.find?_cons_of_pos _ (by simp [nutrientMatches, h1, h2])

/-- Witness for C3: the protein sample record is found both by code "1003"
and by name "Protein". -/
theorem C3_find_first_match_w :
    findNutrient [proteinMg500] ["1003"] = some proteinMg500
      ∧ findNutrient [proteinMg500] ["Protein"] = some proteinMg500 :=
  (C3_find_first_match [] ["1008"]).2.2 proteinMg500 (by decide) (by decide)

/-- C9: a nutrient record whose value field is a string is coerced with
Number: a numeric string is treated exactly like the corresponding number
(converted and rounded), while a string that does not coerce to a finite
number yields null rather than NaN or an error; "95" coerces to 95. -/
theorem C9_string_value_coercion :
    (∀ (ns : List NutrientRecord) (m : NutrientRecord) (s : String),
      findNutrient ns ["1008", "Energy"] = some m → m.value = JSValue.str s →
        (∀ q : ℚ, jsStringToNumber s = JSNum.finite q →
          getEnergyKcal ns =
            some (if unitOf m = "kj" then roundToDec 1 (q / (4184 / 1000))
                  else roundToDec 1 q))
        ∧ (jsIsFinite (jsStringToNumber s) = false → getEnergyKcal ns = none))
    ∧ (∀ (ns : List NutrientRecord) (ids : List String) (m : NutrientRecord)
        (s : String),
      findNutrient ns ids = some m → m.value = JSValue.str s →
        (∀ q : ℚ, jsStringToNumber s = JSNum.finite q →
          getNutrientGrams ns ids =
            some (if unitOf m = "mg" then roundToDec 2 (q / 1000)
                  else roundToDec 2 q))
        ∧ (jsIsFinite (jsStringToNumber s) = false → getNutrientGrams ns ids = none))
    ∧ jsStringToNumber "95" = JSNum.finite 95 := by
  refine ⟨?_, ?_, by with_unfolding_all decide⟩
  · intro ns m s hm hv
    constructor
    · intro q hq
      exact getEnergyKcal_finite hm (by rw [hv]; exact hq)
    · intro hnf
      exact getEnergyKcal_nonfinite hm (by rw [hv]; exact hnf)
  · intro ns ids m s hm hv
    constructor
    · intro q hq
      exact getNutrientGrams_finite hm (by rw [hv]; exact hq)
    · intro hnf
      exact getNutrientGrams_nonfinite hm (by rw [hv]; exact hnf)

/-- Witness for C9 at the concrete record `energyStr95` whose value is the
string "95" in kcal. -/
theorem C9_string_value_coercion_w : getEnergyKcal [energyStr95] = some 95 := by
  have h := (C9_string_value_coercion.1 [energyStr95] energyStr95 "95"
    (by decide) rfl).1 95 (by with_unfolding_all decide)
  rw [h]
  with_unfolding_all decide

/-- C10: the unit of a located record is read from `unitName`, falling back
to `unit`, and compared after lowercasing, so the kilojoule conversion fires
for any casing of "kJ" and the milligram conversion for any casing of "mg";
any other or missing unit leaves the value unconverted and only rounded. -/
theorem C10_unit_fallback_lowercase :
    (∀ (m : NutrientRecord) (u : String), m.unitName = some u → u ≠ "" →
      unitOf m = strLower u)
    ∧ (∀ (m : NutrientRecord) (u : String),
        (m.unitName = none ∨ m.unitName = some "") → m.unit = some u →
        unitOf m = strLower u)
    ∧ (∀ m : NutrientRecord, m.unitName = none → m.unit = none → unitOf m = "")
    ∧ (∀ (ns : List NutrientRecord) (m : NutrientRecord) (v : ℚ),
        findNutrient ns ["1008", "Energy"] = some m →
        toNumber m.value = JSNum.finite v →
        getEnergyKcal ns =
          some (if unitOf m = "kj" then roundToDec 1 (v / (4184 / 1000))
                else roundToDec 1 v))
    ∧ (∀ (ns : List NutrientRecord) (ids : List String) (m : NutrientRecord)
        (v : ℚ),
        findNutrient ns ids = some m → toNumber m.value = JSNum.finite v →
        getNutrientGrams ns ids =
          some (if unitOf m = "mg" then roundToDec 2 (v / 1000)
                else roundToDec 2 v))
    ∧ strLower "kJ" = "kj" ∧ strLower "KJ" = "kj" ∧ strLower "MG" = "mg" := by
  refine ⟨?_, ?_, ?_, ?_, ?_, by decide, by decide, by decide⟩
  · intro m u h hne
    simp [unitOf, jsOrEmpty, h, hne]
  · intro m u h1 h2
    rcases h1 with h1 | h1 <;> simp [unitOf, jsOrEmpty, h1, h2]
  · intro m h1 h2
    simp [unitOf, jsOrEmpty, h1, h2]
    decide
  · exact fun ns m v hm hv => getEnergyKcal_finite hm hv
  · exact fun ns ids m v hm hv => getNutrientGrams_finite hm hv

/-- Witness for C10: upper-case "KJ" triggers the kilojoule conversion and
the `unit` fallback with "MG" triggers the milligram conversion. -/
theorem C10_unit_fallback_lowercase_w :
    getEnergyKcal [energyKJupper] = some (239 / 10)
      ∧ getNutrientGrams [fatUnitFallback] fatIds = some (1 / 2) := by
  constructor
  · have h := C10_unit_fallback_lowercase.2.2.2.1 [energyKJupper] energyKJupper 100
      (by decide) (by decide)
    rw [h]
    with_unfolding_all decide
  · have h := C10_unit_fallback_lowercase.2.2.2.2.1 [fatUnitFallback] fatIds
      fatUnitFallback 500 (by decide) (by decide)
    rw [h]
    with_unfolding_all decide

/-- C4: every NormalizedFood produced by the normalizer has each numeric
field equal to either a finite number rounded to the fixed precision
(1 decimal for calories, 2 for grams) or null, never NaN and never
undefined; an item whose nutrient list matches none of the sought nutrients
yields calories null and all three macros null without throwing. -/
theorem C4_normalized_invariant (item : RawFoodItem) :
    roundedOrNull 1 (normalizeFoodItem item).calories = true
    ∧ roundedOrNull 2 (normalizeFoodItem item).macros.protein_g = true
    ∧ roundedOrNull 2 (normalizeFoodItem item).macros.carbs_g = true
    ∧ roundedOrNull 2 (normalizeFoodItem item).macros.fat_g = true
    ∧ (findNutrient (item.foodNutrients.getD []) ["1008", "Energy"] = none →
       findNutrient (item.foodNutrients.getD []) proteinIds = none →
       findNutrient (item.foodNutrients.getD []) carbIds = none →
       findNutrient (item.foodNutrients.getD []) fatIds = none →
       (normalizeFoodItem item).calories = none
         ∧ (normalizeFoodItem item).macros.protein_g = none
         ∧ (normalizeFoodItem item).macros.carbs_g = none
         ∧ (normalizeFoodItem item).macros.fat_g = none) := by
  refine ⟨?_, ?_, ?_, ?_, ?_⟩
  · exact roundedOrNull_energy _
  · exact roundedOrNull_grams _ _
  · exact roundedOrNull_grams _ _
  · exact roundedOrNull_grams _ _
  · intro h1 h2 h3 h4
    exact ⟨getEnergyKcal_none h1, getNutrientGrams_none h2,
      getNutrientGrams_none h3, getNutrientGrams_none h4⟩

/-- Witness for C4 at an item whose nutrient list is empty: all numeric
fields are null and trivially well-rounded. -/
theorem C4_normalized_invariant_w :
    roundedOrNull 1 (normalizeFoodItem
      { fdcId := none, description := none, brandName := none,
        brandOwner := none, servingSize := none, servingSizeUnit := none,
        foodNutrients := none }).calories = true
    ∧ (normalizeFoodItem
      { fdcId := none, description := none, brandName := none,
        brandOwner := none, servingSize := none, servingSizeUnit := none,
        foodNutrients := none }).calories = none :=
  ⟨(C4_normalized_invariant _).1,
   ((C4_normalized_invariant
      { fdcId := none, description := none, brandName := none,
        brandOwner := none, servingSize := none, servingSizeUnit := none,
        foodNutrients := none }).2.2.2.2
     (by decide) (by decide) (by decide) (by decide)).1⟩

lemma jsParseInt10_ten : jsParseInt10 "10" = some 10 := by decide

lemma limitParamOk_none : limitParamOk none = true := rfl

lemma min_ten_fifty : min (10 : ℤ) 50 = 10 := by decide

lemma proceed_limit_of_pre {tp lp : Option String} {q : String} {l : ℤ} {n : ℤ}
    (hp : jsParseInt10 (lp.getD "10") = some n)
    (h : foodsPreUpstream tp lp true = PreOutcome.proceed q l) : l = min n 50 := by
  unfold foodsPreUpstream at h
  rw [hp] at h
  by_cases ht : (typeParamOk tp && limitParamOk lp) = true
  · simp only [ht, Bool.not_true, Bool.false_eq_true, if_false, if_true,
      Bool.not_false] at h
    split at h
    · exact absurd h (by simp)
    · split at h
      · exact absurd h (by simp)
      · split at h
        · exact absurd h (by simp)
        · split at h
          · exact absurd h (by simp)
          · exact ((PreOutcome.proceed.injEq _ _ _ _).mp h.symm).2
  · rw [Bool.not_eq_true] at ht
    simp only [ht, Bool.not_false, if_true] at h
    exact absurd h (by simp)

lemma pre_parse_none_no_proceed {tp lp : Option String} {q : String} {l : ℤ}
    (hp : jsParseInt10 (lp.getD "10") = none)
    (h : foodsPreUpstream tp lp true = PreOutcome.proceed q l) : False := by
  unfold foodsPreUpstream at h
  rw [hp] at h
  split at h
  · exact absurd h (by simp)
  · simp at h

/-- C5 (amended): for every /foods request with a valid type, an omitted limit
defaults to 10 and the limit carried into every successful response is at most
50; an integer limit greater than 50 is rejected by the syntactic validator
with a ValidationError (HTTP 400) rather than being clamped. -/
theorem C5_limit_default_and_cap :
    (∀ (tp : Option String) (q : String) (l : ℤ),
      foodsPreUpstream tp none true = PreOutcome.proceed q l → l = 10)
    ∧ (∀ (tp lp : Option String) (q : String) (l : ℤ),
      foodsPreUpstream tp lp true = PreOutcome.proceed q l → l ≤ 50)
    ∧ foodsPreUpstream (some "apple") (some "60") true = PreOutcome.validationErr
    ∧ preStatus PreOutcome.validationErr = 400 := by
  refine ⟨?_, ?_, by with_unfolding_all decide, rfl⟩
  · intro tp q l h
    have hp : jsParseInt10 ((none : Option String).getD "10") = some 10 := by decide
    rw [proceed_limit_of_pre hp h]
    decide
  · intro tp lp q l h
    cases hp : jsParseInt10 (lp.getD "10") with
    | none => exact absurd h (fun h => pre_parse_none_no_proceed hp h)
    | some n =>
        rw [proceed_limit_of_pre hp h]
        exact min_le_right _ _

/-- Witness for C5: a valid request with no limit proceeds with limit 10,
which is at most 50. -/
theorem C5_limit_default_and_cap_w : (10 : ℤ) = 10 ∧ (10 : ℤ) ≤ 50 :=
  ⟨C5_limit_default_and_cap.1 (some "apple") "apple" 10
      (by with_unfolding_all decide),
   C5_limit_default_and_cap.2.1 (some "apple") none "apple" 10
      (by with_unfolding_all decide)⟩

/-- Counterexample for C5 as stated: the request type=apple with limit=60 is
rejected by validation with HTTP 400; it does not succeed with the limit
clamped to 50. -/
theorem C5_cex_limit60_rejected :
    foodsPreUpstream (some "apple") (some "60") true = PreOutcome.validationErr
    ∧ foodsPreUpstream (some "apple") (some "60") true
        ≠ PreOutcome.proceed "apple" 50
    ∧ preStatus PreOutcome.validationErr = 400 := by
  with_unfolding_all decide

lemma typeParamOk_nonempty {s : String} (h : typeParamOk (some s) = true) :
    (strTrim s).data.isEmpty = false := by
  simp only [typeParamOk, Bool.and_eq_true, Bool.not_eq_true'] at h
  exact h.1.1

lemma pre_foodtype_of_checks {s : String} (hOk : typeParamOk (some s) = true)
    (hbad : (strTrim s).data.isEmpty = true ∨ (strTrim s).data.length < 2
      ∨ isProblematic (strTrim s) = true) :
    foodsPreUpstream (some s) none true = PreOutcome.foodTypeErr := by
  have h1 : (typeParamOk (some s) && limitParamOk none) = true := by rw [hOk]; rfl
  unfold foodsPreUpstream
  rw [h1]
  simp only [Option.getD_none, Option.getD_some, jsParseInt10_ten, Bool.not_true,
    Bool.false_eq_true, if_false, if_true]
  rcases hbad with hb | hb | hb
  · simp [hb, jsParseInt10_ten]
  · by_cases he : (strTrim s).data.isEmpty = true
    · simp [he, jsParseInt10_ten]
    · simp [he, jsParseInt10_ten]
      intro hlen
      exfalso
      have hsl : (strTrim s).length = (strTrim s).data.length := rfl
      omega
  · by_cases he : (strTrim s).data.isEmpty = true
    · simp [he, jsParseInt10_ten]
    · by_cases hl : (strTrim s).data.length < 2
      · simp [he, hl, jsParseInt10_ten]
        exact fun _ => hb
      · simp [he, hl, hb, jsParseInt10_ten]

/-- C6 (amended): after syntactic validation of /foods, every query string
that has length less than 2, is all-digit, consists only of characters that
are neither word characters nor whitespace, or equals case-insensitively one
of the reserved words test, debug, admin, system, is rejected with a
FoodTypeError and HTTP 400.  (A query with no word characters that contains
whitespace, such as "- -", is not rejected.) -/
theorem C6_semantic_rejection (s : String) (hOk : typeParamOk (some s) = true)
    (hcase : (strTrim s).data.length < 2
      ∨ (strTrim s).data.all Char.isDigit = true
      ∨ (strTrim s).data.all (fun c => !isWordChar c && !c.isWhitespace) = true
      ∨ strLower (strTrim s) ∈ reservedWords) :
    foodsPreUpstream (some s) none true = PreOutcome.foodTypeErr
      ∧ preStatus PreOutcome.foodTypeErr = 400 := by
  refine ⟨?_, rfl⟩
  apply pre_foodtype_of_checks hOk
  have hne := typeParamOk_nonempty hOk
  rcases hcase with hc | hc | hc | hc
  · exact Or.inr (Or.inl hc)
  · refine Or.inr (Or.inr ?_)
    simp [isProblematic, hne, hc]
  · refine Or.inr (Or.inr ?_)
    simp [isProblematic, hne, hc]
  · refine Or.inr (Or.inr ?_)
    simp only [isProblematic, Bool.or_eq_true]
    exact Or.inr (List.any_eq_true.mpr ⟨_, hc, by simp⟩)

/-- Witness for C6 at the all-digit query "123". -/
theorem C6_semantic_rejection_w :
    foodsPreUpstream (some "123") none true = PreOutcome.foodTypeErr
      ∧ preStatus PreOutcome.foodTypeErr = 400 :=
  C6_semantic_rejection "123" (by decide) (Or.inr (Or.inl (by decide)))

/-- Counterexample for C6 as stated: the query "- -" passes syntactic
validation and contains no word characters, yet it is not rejected with a
FoodTypeError: the request proceeds to the upstream call. -/
theorem C6_cex_nonword_query_passes :
    typeParamOk (some "- -") = true
    ∧ ("- -").data.all (fun c => !isWordChar c) = true
    ∧ foodsPreUpstream (some "- -") none true = PreOutcome.proceed "- -" 10 := by
  with_unfolding_all decide

/-- C7: for every non-success upstream HTTP status s, the handler produces an
UpstreamAPIError response carrying upstream_status equal to s, a message from
the fixed table for 400, 401, 403, 404, 429, 500, 502, 503, 504 (generic
otherwise), and an HTTP status equal to s when s is below 500 (in particular
429 maps to 429) and 503 when s is at least 500. -/
theorem C7_upstream_error_mapping (s : ℕ) (hno : ¬(200 ≤ s ∧ s ≤ 299)) :
    (upstreamErrorResponse s).upstream_status = s
    ∧ (s < 500 → (upstreamErrorResponse s).httpStatus = s)
    ∧ (500 ≤ s → (upstreamErrorResponse s).httpStatus = 503)
    ∧ (∀ msg : String, statusMessageTable.lookup s = some msg →
        (upstreamErrorResponse s).errMsg = msg)
    ∧ (statusMessageTable.lookup s = none →
        (upstreamErrorResponse s).errMsg = "USDA API error occurred")
    ∧ ((statusMessageTable.lookup s).isSome = true ↔
        s ∈ [400, 401, 403, 404, 429, 500, 502, 503, 504]) := by
  refine ⟨rfl, ?_, ?_, ?_, ?_, ?_⟩
  · intro hlt
    simp [upstreamErrorResponse, not_le.mpr hlt]
  · intro hge
    simp [upstreamErrorResponse, hge]
  · intro msg hmsg
    simp [upstreamErrorResponse, hmsg]
  · intro hnone
    simp [upstreamErrorResponse, hnone]
  · by_cases hmem : s ∈ [400, 401, 403, 404, 429, 500, 502, 503, 504]
    · fin_cases hmem <;> decide
    · have hnone : statusMessageTable.lookup s = none := by
        simp only [List.mem_cons, List.not_mem_nil, or_false, not_or] at hmem
        obtain ⟨h1, h2, h3, h4, h5, h6, h7, h8, h9⟩ := hmem
        have e1 : (s == 400) = false := by simp [h1]
        have e2 : (s == 401) = false := by simp [h2]
        have e3 : (s == 403) = false := by simp [h3]
        have e4 : (s == 404) = false := by simp [h4]
        have e5 : (s == 429) = false := by simp [h5]
        have e6 : (s == 500) = false := by simp [h6]
        have e7 : (s == 502) = false := by simp [h7]
        have e8 : (s == 503) = false := by simp [h8]
        have e9 : (s == 504) = false := by simp [h9]
        simp [statusMessageTable, List.lookup, e1, e2, e3, e4, e5, e6, e7, e8, e9]
      simp [hnone, hmem]

/-- Witness for C7 at upstream status 429: the response echoes
upstream_status 429 and has HTTP status 429. -/
theorem C7_upstream_error_mapping_w :
    (upstreamErrorResponse 429).upstream_status = 429
      ∧ (upstreamErrorResponse 429).httpStatus = 429 :=
  ⟨(C7_upstream_error_mapping 429 (by decide)).1,
   (C7_upstream_error_mapping 429 (by decide)).2.1 (by decide)⟩

/-- C8: with a success upstream status, a body that fails to parse as JSON or
whose parsed value is not an object in the sense of the handler's guard
(JavaScript typeof, so arrays and objects pass) produces a ParsingError
response with status 422; only object-like bodies proceed to normalization. -/
theorem C8_body_parsing :
    handleParsedBody none = BodyStep.parsingErrorResp 422
    ∧ (∀ v : JsonValue, isObjectLike v = false →
        handleParsedBody (some v) = BodyStep.parsingErrorResp 422)
    ∧ (∀ v : JsonValue, isObjectLike v = true →
        handleParsedBody (some v) = BodyStep.normalizeData v) := by
  refine ⟨rfl, ?_, ?_⟩
  · intro v hv
    cases v <;> simp_all [handleParsedBody, isObjectLike, jsFalsy, jsTypeofObject]
  · intro v hv
    cases v <;> simp_all [handleParsedBody, isObjectLike, jsFalsy, jsTypeofObject]

/-- Witness for C8: an empty JSON object proceeds to normalization and the
JSON number 0 produces the 422 parsing-error response. -/
theorem C8_body_parsing_w :
    handleParsedBody (some (JsonValue.jobj []))
        = BodyStep.normalizeData (JsonValue.jobj [])
      ∧ handleParsedBody (some (JsonValue.jnum 0)) = BodyStep.parsingErrorResp 422 :=
  ⟨C8_body_parsing.2.2 (JsonValue.jobj []) rfl,
   C8_body_parsing.2.1 (JsonValue.jnum 0) rfl⟩
